import Mathlib

/-!
# wasilibs/magefiles: benchmark argument construction and task orchestration

A shallow embedding of the Go sources

* `internal/meta/name.go`   (the two process-wide names),
* `internal/args/args.go`   (`BenchMode`, `BenchArgs`),
* `tasks.go`                (`Test`, `Format`, `Lint`, `BenchAll`, `UpdateLibs`,
                             `UpdateUpstream`, `buildTags`),
* `waf/tasks.go`            (`WAFBenchAll`).

Every call that leaves the process (`os.*`, `sh.*`, the GitHub REST client) is
recorded in a trace and its outcome is read from an `Oracle`, a family of
functions of the trace so far, so that each external step may succeed or fail
independently of every other step.
-/

namespace Magefiles

/-! ## Go values -/

/-- Go `error` values that occur in the tasks.  `external` is an error handed
back by a collaborator (`os`, `sh`, `api`), `errorsNew msg` is `errors.New(msg)`
and `errorfW pre err` is `fmt.Errorf(pre + "%w", err)`. -/
inductive GoError where
  | external (msg : String)
  | errorsNew (msg : String)
  | errorfW (pre : String) (err : GoError)
  deriving DecidableEq, Repr

/-- The `Error()` method: the message of an error value. -/
def GoError.Error : GoError → String
  | .external msg => msg
  | .errorsNew msg => msg
  | .errorfW pre err => pre ++ err.Error

/-- The `Unwrap()` method: the error wrapped by `%w`, if any. -/
def GoError.Unwrap : GoError → Option GoError
  | .external _ => none
  | .errorsNew _ => none
  | .errorfW _ err => some err

/-- How a task function ends: it returns its `error` result (`none` is `nil`),
or it panics (the way `mg.Deps` reports a failed dependency). -/
inductive Exit where
  | returned (err : Option GoError)
  | panicked (err : GoError)
  deriving DecidableEq, Repr

/-- The part of `github.RepositoryRelease` the tasks read: the optional
`TagName` field (a `*string` in Go). -/
structure RepositoryRelease where
  TagName : Option String
  deriving DecidableEq, Repr

/-- The accessor `(*RepositoryRelease).GetTagName` for a non-nil receiver:
the tag, or the empty string when the field is nil. -/
def RepositoryRelease.GetTagName (r : RepositoryRelease) : String :=
  match r.TagName with
  | some t => t
  | none => ""

/-- Package `internal/meta`: the variables `LibraryName` and `LibraryRepo`. -/
structure Meta where
  LibraryName : String
  LibraryRepo : String
  deriving DecidableEq, Repr

/-- Package `internal/versions` (not part of the sources at hand): the pinned
versions of the tools the tasks run, taken as parameters. -/
structure Versions where
  GoFumpt : String
  GosImports : String
  GolangCILint : String
  GolangPerf : String
  deriving DecidableEq, Repr

/-! ## The outside world -/

/-- One call that leaves the process.  Every call is recorded, whether it
succeeds or fails. -/
inductive Effect where
  | MkdirAll (path : String) (perm : Nat)
  | ReadFile (path : String)
  | WriteFile (path : String) (data : String) (perm : Nat)
  | Getwd
  | Output (cmd : String) (args : List String)
  | RunV (cmd : String) (args : List String)
  | DefaultRESTClient
  | Get (path : String)
  deriving DecidableEq, Repr

/-- Outcomes of the external steps.  Each field receives the trace of the calls
made before the step and the arguments of the step; `none` (or `.ok`) is
success and a string is the message of the error handed back.
`WriteFileWritten` says what a failed `os.WriteFile` did to the file: `none`
when the file could not be opened, `some k` when it was opened (and so
truncated) and `k` characters were written before the failure.
`unicodeToLower` is Go's `unicode.ToLower` on non-ASCII text. -/
structure Oracle where
  MkdirAll : List Effect → String → Option String
  ReadFile : List Effect → String → Option String
  WriteFile : List Effect → String → String → Option String
  WriteFileWritten : List Effect → String → String → Option Nat
  Getwd : List Effect → Except String String
  Output : List Effect → String → List String → Except String String
  RunV : List Effect → String → List String → Option String
  DefaultRESTClient : List Effect → Option String
  Get : List Effect → String → Except String (Option RepositoryRelease)
  unicodeToLower : Char → Char

/-- Process state and the observable surroundings: the two names of package
`meta`, the environment, the files (path and content, latest binding first),
the lines printed with `fmt.Println`, the trace of external calls (oldest
first) and the number of times `UpdateLibs` was run through `mg.Deps`. -/
structure World where
  meta : Meta
  env : String → String
  files : List (String × String)
  stdout : List String
  trace : List Effect
  updateLibsRuns : Nat

/-- Append one external call to the trace. -/
def World.record (w : World) (e : Effect) : World :=
  { w with trace := w.trace ++ [e] }

/-- `os.Getenv`: the value of the variable, empty when unset. -/
def osGetenv (w : World) (key : String) : String :=
  w.env key

/-- `fmt.Println` of one string. -/
def fmtPrintln (w : World) (line : String) : World :=
  { w with stdout := w.stdout ++ [line] }

/-- `os.MkdirAll`. -/
def osMkdirAll (o : Oracle) (w : World) (path : String) (perm : Nat) :
    Option GoError × World :=
  ((o.MkdirAll w.trace path).map GoError.external, w.record (.MkdirAll path perm))

/-- `os.WriteFile`: the file is opened with `O_TRUNC` and `data` is written.
On success the file holds exactly `data`.  On failure the file is untouched
when it could not be opened, and otherwise holds the part of `data` that was
written. -/
def osWriteFile (o : Oracle) (w : World) (path data : String) (perm : Nat) :
    Option GoError × World :=
  match o.WriteFile w.trace path data with
  | some msg =>
    match o.WriteFileWritten w.trace path data with
    | none => (some (.external msg), w.record (.WriteFile path data perm))
    | some k =>
      (some (.external msg),
       { w.record (.WriteFile path data perm) with
         files := (path, String.mk (data.data.take k)) :: w.files })
  | none =>
    (none, { w.record (.WriteFile path data perm) with files := (path, data) :: w.files })

/-- `os.ReadFile`: fails when the oracle says so or when the file is absent. -/
def osReadFile (o : Oracle) (w : World) (path : String) :
    Except GoError String × World :=
  match o.ReadFile w.trace path with
  | some msg => (.error (.external msg), w.record (.ReadFile path))
  | none =>
    match w.files.lookup path with
    | some data => (.ok data, w.record (.ReadFile path))
    | none => (.error (.external "file does not exist"), w.record (.ReadFile path))

/-- `os.Getwd`. -/
def osGetwd (o : Oracle) (w : World) : Except GoError String × World :=
  match o.Getwd w.trace with
  | .error msg => (.error (.external msg), w.record .Getwd)
  | .ok wd => (.ok wd, w.record .Getwd)

/-- `sh.Output`: run a command and capture its standard output. -/
def shOutput (o : Oracle) (w : World) (cmd : String) (args : List String) :
    Except GoError String × World :=
  match o.Output w.trace cmd args with
  | .error msg => (.error (.external msg), w.record (.Output cmd args))
  | .ok out => (.ok out, w.record (.Output cmd args))

/-- `sh.RunV`: run a command, its output going to the terminal. -/
def shRunV (o : Oracle) (w : World) (cmd : String) (args : List String) :
    Option GoError × World :=
  ((o.RunV w.trace cmd args).map GoError.external, w.record (.RunV cmd args))

/-- `api.DefaultRESTClient`. -/
def apiDefaultRESTClient (o : Oracle) (w : World) : Option GoError × World :=
  ((o.DefaultRESTClient w.trace).map GoError.external, w.record .DefaultRESTClient)

/-- The method `Get` of the REST client, decoding into a
`*github.RepositoryRelease`; `.ok none` is a response that leaves it nil. -/
def ghGet (o : Oracle) (w : World) (path : String) :
    Except GoError (Option RepositoryRelease) × World :=
  match o.Get w.trace path with
  | .error msg => (.error (.external msg), w.record (.Get path))
  | .ok release => (.ok release, w.record (.Get path))

/-- `filepath.Join` with the separator `/`: the non-empty elements joined.
The cleaning step of `Join` is the identity on the elements the tasks pass
(plain names, and the working directory when it is not the root). -/
def filepathJoin (elem : List String) : String :=
  "/".intercalate (elem.filter (fun e => e ≠ ""))

/-- The ASCII branch of `strings.ToLower`: `A`..`Z` to `a`..`z`. -/
def asciiLower (c : Char) : Char :=
  if 'A' ≤ c ∧ c ≤ 'Z' then Char.ofNat (c.toNat + 32) else c

/-- `strings.ToLower`: ASCII-only text is lowered bytewise, any other text is
mapped with `unicode.ToLower`. -/
def stringsToLower (o : Oracle) (s : String) : String :=
  if s.data.all (fun c => c.toNat < 128) then String.mk (s.data.map asciiLower)
  else String.mk (s.data.map o.unicodeToLower)

/-- `unicode.IsSpace`. -/
def unicodeIsSpace (c : Char) : Bool :=
  let n := c.toNat
  n = 0x09 || n = 0x0A || n = 0x0B || n = 0x0C || n = 0x0D || n = 0x20 ||
  n = 0x85 || n = 0xA0 || n = 0x1680 || (0x2000 ≤ n && n ≤ 0x200A) ||
  n = 0x2028 || n = 0x2029 || n = 0x202F || n = 0x205F || n = 0x3000

/-- `strings.TrimSpace`: leading and trailing white space removed. -/
def stringsTrimSpace (s : String) : String :=
  String.mk ((s.data.dropWhile unicodeIsSpace).reverse.dropWhile unicodeIsSpace).reverse

/-- `strings.Join`. -/
def stringsJoin (elems : List String) (sep : String) : String :=
  sep.intercalate elems

/-- `isShellSpecialVar` of package `os`. -/
def isShellSpecialVar (c : Char) : Bool :=
  c = '*' || c = '#' || c = '$' || c = '@' || c = '!' || c = '?' || c = '-' ||
  ('0' ≤ c && c ≤ '9')

/-- `isAlphaNum` of package `os`: an underscore, a digit or an ASCII letter. -/
def isAlphaNum (c : Char) : Bool :=
  c = '_' || ('0' ≤ c && c ≤ '9') || ('a' ≤ c && c ≤ 'z') || ('A' ≤ c && c ≤ 'Z')

/-- `getShellName` of package `os`, on the text after a dollar sign: the name
of the variable and the number of characters it takes. -/
def getShellName (s : List Char) : List Char × Nat :=
  match s with
  | [] => ([], 0)
  | c :: rest =>
    if c = Char.ofNat 123 then
      match rest with
      | [] => ([], 1)
      | d :: after =>
        if isShellSpecialVar d ∧ after.head? = some (Char.ofNat 125) then ([d], 3)
        else
          let body := rest.takeWhile (fun x => x ≠ Char.ofNat 125)
          if body.length = rest.length then ([], 1)
          else if body = [] then ([], 2)
          else (body, body.length + 2)
    else if isShellSpecialVar c then ([c], 1)
    else
      let name := s.takeWhile isAlphaNum
      (name, name.length)

/-- The loop of `os.Expand`; `fuel` bounds the number of characters left. -/
def osExpandAux (mapping : String → String) : Nat → List Char → List Char
  | 0, cs => cs
  | _ + 1, [] => []
  | fuel + 1, c :: rest =>
    if c = '$' ∧ rest ≠ [] then
      let name := (getShellName rest).1
      let width := (getShellName rest).2
      let out :=
        if name = [] ∧ width > 0 then []
        else if name = [] then ['$']
        else (mapping (String.mk name)).data
      out ++ osExpandAux mapping fuel (rest.drop width)
    else c :: osExpandAux mapping fuel rest

/-- `os.Expand`: each `$name` and each braced name after a dollar sign is
replaced by `mapping name`; a dollar sign at the end of the text stays. -/
def osExpand (mapping : String → String) (s : String) : String :=
  String.mk (osExpandAux mapping s.length s.data)

/-- The message of the error the `sh` functions of mage (`sh.Output`,
`sh.RunV`) return for a command that ran and exited with `code`: the command
line, with the environment expanded in every argument as `sh` does before it
starts the command, and the exit code. -/
def shRanFailure (env : String → String) (cmd : String) (args : List String) (code : Nat) :
    String :=
  "running \"" ++ osExpand env cmd ++ " " ++ stringsJoin (args.map (osExpand env)) " "
    ++ "\" failed with exit code " ++ toString code

/-! ## `internal/args/args.go` -/

/-- `type BenchMode int`. -/
abbrev BenchMode := Int

/-- The first `iota` constant. -/
def BenchModeWazero : BenchMode := 0

/-- The second `iota` constant. -/
def BenchModeCGO : BenchMode := 1

/-- The third `iota` constant. -/
def BenchModeDefault : BenchMode := 2

/-- `BenchArgs`, reading `meta.LibraryName` from `m`.  `%d` prints the decimal
form of `count`, `%s` the library name. -/
def BenchArgs (m : Meta) (pkg : String) (count : Int) (mode : BenchMode) : List String :=
  let args := ["test", "-bench=.", "-run=^$", "-v", "-timeout=60m"]
  let args := if count > 0 then args ++ ["-count=" ++ toString count] else args
  let args :=
    if mode = BenchModeCGO then args ++ ["-tags=" ++ m.LibraryName ++ "_cgo"]
    else if mode = BenchModeDefault then args ++ ["-tags=" ++ m.LibraryName ++ "_bench_default"]
    else args
  let args := args ++ [pkg]
  args

/-! ## `tasks.go` -/

/-- `SetLibraryName`. -/
def SetLibraryName (w : World) (name : String) : World :=
  { w with meta := { w.meta with LibraryName := name } }

/-- `SetLibraryRepo`. -/
def SetLibraryRepo (w : World) (repo : String) : World :=
  { w with meta := { w.meta with LibraryRepo := repo } }

/-- `buildTags`. -/
def buildTags (o : Oracle) (w : World) : String :=
  let mode := stringsToLower o (osGetenv w "WASI_TEST_MODE")
  let tags : List String := []
  let tags := if mode = "cgo" then tags ++ [w.meta.LibraryName ++ "_cgo"] else tags
  stringsJoin tags ","

/-- `Test`. -/
def Test (o : Oracle) (w : World) : Option GoError × World :=
  let mode := stringsToLower o (osGetenv w "WASI_TEST_MODE")
  if mode ≠ "tinygo" then
    shRunV o w "go" ["test", "-v", "-timeout=20m", "-tags", buildTags o w, "./..."]
  else
    shRunV o w "tinygo" ["test", "-target=wasi", "-v", "-tags", buildTags o w, "./..."]

/-- `Format`. -/
def Format (v : Versions) (o : Oracle) (w : World) : Option GoError × World :=
  match shRunV o w "go" ["run", "mvdan.cc/gofumpt@" ++ v.GoFumpt, "-l", "-w", "."] with
  | (some err, w) => (some err, w)
  | (none, w) =>
    match shRunV o w "go"
        ["run", "github.com/rinchsan/gosimports/cmd/gosimports@" ++ v.GosImports, "-w",
         "-local", "github.com/wasilibs", "."] with
    | (some _, w) => (none, w)
    | (none, w) => (none, w)

/-- `Lint`. -/
def Lint (v : Versions) (o : Oracle) (w : World) : Option GoError × World :=
  shRunV o w "go"
    ["run", "github.com/golangci/golangci-lint/cmd/golangci-lint@" ++ v.GolangCILint, "run",
     "--build-tags", buildTags o w, "--timeout", "30m"]

/-- `BenchAll`. -/
def BenchAll (v : Versions) (o : Oracle) (w : World) : Option GoError × World :=
  match osMkdirAll o w "build" 0o755 with
  | (some err, w) => (some err, w)
  | (none, w) =>
    let w := fmtPrintln w "Executing wazero benchmarks"
    match shOutput o w "go" (BenchArgs w.meta "./..." 5 BenchModeWazero) with
    | (.error err, w) => (some (.errorfW "error running wazero benchmarks: " err), w)
    | (.ok wazero, w) =>
      match osWriteFile o w (filepathJoin ["build", "bench.txt"]) wazero 0o644 with
      | (some err, w) => (some err, w)
      | (none, w) =>
        let w := fmtPrintln w "Executing cgo benchmarks"
        match shOutput o w "go" (BenchArgs w.meta "./..." 5 BenchModeCGO) with
        | (.error err, w) =>
          let w := fmtPrintln w "Error running cgo benchmarks:"
          (some (.errorfW "error running cgo benchmarks: " err), w)
        | (.ok cgo, w) =>
          match osWriteFile o w (filepathJoin ["build", "bench_cgo.txt"]) cgo 0o644 with
          | (some err, w) => (some err, w)
          | (none, w) =>
            let w := fmtPrintln w "Executing default benchmarks"
            match shOutput o w "go" (BenchArgs w.meta "./..." 5 BenchModeDefault) with
            | (.error err, w) => (some (.errorfW "error running default benchmarks: " err), w)
            | (.ok def_, w) =>
              match osWriteFile o w (filepathJoin ["build", "bench_default.txt"]) def_ 0o644 with
              | (some err, w) => (some err, w)
              | (none, w) =>
                shRunV o w "go"
                  ["run", "golang.org/x/perf/cmd/benchstat@" ++ v.GolangPerf,
                   "build/bench_default.txt", "build/bench.txt", "build/bench_cgo.txt"]

/-- `UpdateLibs`. -/
def UpdateLibs (o : Oracle) (w : World) : Option GoError × World :=
  match shRunV o w "docker"
      ["build", "-t", "wasilibs-build", "-f",
       filepathJoin ["buildtools", "wasm", "Dockerfile"], "."] with
  | (some err, w) => (some err, w)
  | (none, w) =>
    match osGetwd o w with
    | (.error err, w) => (some err, w)
    | (.ok wd, w) =>
      let wasmDir := filepathJoin [wd, "internal", "wasm"]
      match osMkdirAll o w wasmDir 0o755 with
      | (some err, w) => (some err, w)
      | (none, w) =>
        shRunV o w "docker" ["run", "--rm", "-v", wasmDir ++ ":/out", "wasilibs-build"]

/-- `mg.Deps(UpdateLibs)` in a process that has not run `UpdateLibs` as a
dependency before: the task is run once, and `mg.Deps` panics with its error
when it fails.  The result is the panic value, if any. -/
def mgDepsUpdateLibs (o : Oracle) (w : World) : Option GoError × World :=
  UpdateLibs o { w with updateLibsRuns := w.updateLibsRuns + 1 }

/-- `UpdateUpstream`. -/
def UpdateUpstream (o : Oracle) (w : World) : Exit × World :=
  match osReadFile o w (filepathJoin ["buildtools", "wasm", "version.txt"]) with
  | (.error err, w) => (.returned (some err), w)
  | (.ok currBytes, w) =>
    let curr := stringsTrimSpace currBytes
    match apiDefaultRESTClient o w with
    | (some err, w) => (.returned (some err), w)
    | (none, w) =>
      match ghGet o w ("repos/" ++ w.meta.LibraryRepo ++ "/releases/latest") with
      | (.error err, w) => (.returned (some err), w)
      | (.ok none, w) => (.returned (some (.errorsNew "could not find releases")), w)
      | (.ok (some release), w) =>
        let latest := release.GetTagName
        if latest = curr then
          let w := fmtPrintln w "up to date"
          (.returned none, w)
        else
          let w := fmtPrintln w ("updating to " ++ latest)
          match osWriteFile o w (filepathJoin ["buildtools", "wasm", "version.txt"]) latest 0o644 with
          | (some err, w) => (.returned (some err), w)
          | (none, w) =>
            match mgDepsUpdateLibs o w with
            | (some err, w) => (.panicked err, w)
            | (none, w) => (.returned none, w)

/-! ## `waf/tasks.go` -/

/-- `WAFBenchAll`. -/
def WAFBenchAll (v : Versions) (o : Oracle) (w : World) : Option GoError × World :=
  match osMkdirAll o w "build" 0o755 with
  | (some err, w) => (some err, w)
  | (none, w) =>
    let w := fmtPrintln w "Executing wazero benchmarks"
    match shOutput o w "go" (BenchArgs w.meta "./wafbench" 5 BenchModeWazero) with
    | (.error err, w) => (some err, w)
    | (.ok wazero, w) =>
      match osWriteFile o w (filepathJoin ["build", "wafbench.txt"]) wazero 0o644 with
      | (some err, w) => (some err, w)
      | (none, w) =>
        let w := fmtPrintln w "Executing cgo benchmarks"
        match shOutput o w "go" (BenchArgs w.meta "./wafbench" 5 BenchModeCGO) with
        | (.error err, w) => (some err, w)
        | (.ok cgo, w) =>
          match osWriteFile o w (filepathJoin ["build", "wafbench_cgo.txt"]) cgo 0o644 with
          | (some err, w) => (some err, w)
          | (none, w) =>
            let w := fmtPrintln w "Executing default benchmarks"
            match shOutput o w "go" (BenchArgs w.meta "./wafbench" 5 BenchModeDefault) with
            | (.error err, w) => (some err, w)
            | (.ok def_, w) =>
              match osWriteFile o w (filepathJoin ["build", "wafbench_default.txt"]) def_ 0o644 with
              | (some err, w) => (some err, w)
              | (none, w) =>
                shRunV o w "go"
                  ["run", "golang.org/x/perf/cmd/benchstat@" ++ v.GolangPerf,
                   "build/wafbench_default.txt", "build/wafbench.txt",
                   "build/wafbench_cgo.txt"]

/-! ## Vocabulary of the claims -/

/-- The token `t` begins with `pre` (as `strings.HasPrefix`). -/
def hasPrefix (t pre : String) : Prop := pre.data <+: t.data

instance (t pre : String) : Decidable (hasPrefix t pre) := by
  unfold hasPrefix; infer_instance

/-- The token `t` ends in `suf` (as `strings.HasSuffix`). -/
def hasSuffix (t suf : String) : Prop := suf.data <:+ t.data

instance (t suf : String) : Decidable (hasSuffix t suf) := by
  unfold hasSuffix; infer_instance

/-- A tag token: a token of the form `-tags=...`. -/
def isTagToken (t : String) : Prop := hasPrefix t "-tags="

instance (t : String) : Decidable (isTagToken t) := by
  unfold isTagToken; infer_instance

/-- A count token: a token of the form `-count=...`. -/
def isCountToken (t : String) : Prop := hasPrefix t "-count="

instance (t : String) : Decidable (isCountToken t) := by
  unfold isCountToken; infer_instance

/-- Read decimal digits, most significant first, onto the accumulator; any
other character makes the reading fail. -/
def parseDecimalAux : List Char → Nat → Option Nat
  | [], acc => some acc
  | c :: cs, acc =>
    if c.isDigit then parseDecimalAux cs (acc * 10 + (c.toNat - 48)) else none

/-- Parse a non-empty string of decimal digits. -/
def parseDecimal (cs : List Char) : Option Nat :=
  match cs with
  | [] => none
  | _ => parseDecimalAux cs 0

/-- The number a count token carries: what follows `-count=`, parsed. -/
def countOfToken (t : String) : Option Int :=
  if isCountToken t then (parseDecimal (t.data.drop 7)).map Int.ofNat else none

/-- The effect is a run of a command through `sh.RunV`. -/
def Effect.isRunV : Effect → Bool
  | .RunV _ _ => true
  | _ => false

/-- The effect is a write of a file (`os.WriteFile`). -/
def Effect.isWriteFile : Effect → Bool
  | .WriteFile _ _ _ => true
  | _ => false

/-- A sample environment: the variable `WASI_TEST_MODE` set to `mode`, every
other variable unset. -/
def sampleEnv (mode : String) : String → String :=
  fun key => if key = "WASI_TEST_MODE" then mode else ""

/-- A sample oracle: every external step succeeds, except the step made when
the trace holds `failAt` calls.  A failing command exits with code 1 and its
error is the one `sh` builds, in the sample environment; a failing write is
one that opened the file and wrote nothing.  A run captured by `sh.Output`
prints `out` followed by the number of calls made before it; the release
lookup answers `release`; the working directory is `/work`. -/
def scriptedOracle (failAt : Option Nat) (release : Option RepositoryRelease) : Oracle where
  MkdirAll tr _ := if failAt = some tr.length then some "permission denied" else none
  ReadFile tr _ := if failAt = some tr.length then some "permission denied" else none
  WriteFile tr _ _ := if failAt = some tr.length then some "disk full" else none
  WriteFileWritten _ _ _ := some 0
  Getwd tr := if failAt = some tr.length then .error "no working directory" else .ok "/work"
  Output tr cmd args :=
    if failAt = some tr.length then .error (shRanFailure (sampleEnv "") cmd args 1)
    else .ok ("out" ++ toString tr.length)
  RunV tr cmd args :=
    if failAt = some tr.length then some (shRanFailure (sampleEnv "") cmd args 1) else none
  DefaultRESTClient tr := if failAt = some tr.length then some "no token" else none
  Get tr _ := if failAt = some tr.length then .error "HTTP 500" else .ok release
  unicodeToLower c := c

/-- A sample world: library `foo` of repository `owner/foo`, the variable
`WASI_TEST_MODE` set to `mode`, the given files, nothing printed or called
yet. -/
def sampleWorld (mode : String) (files : List (String × String)) : World where
  meta := ⟨"foo", "owner/foo"⟩
  env := sampleEnv mode
  files := files
  stdout := []
  trace := []
  updateLibsRuns := 0

/-- Sample tool versions. -/
def sampleVersions : Versions := ⟨"v0.6.0", "v0.3.8", "v1.59.1", "latest"⟩

/-! ## Auxiliary lemmas -/

theorem digitChar_isDigit (r : Nat) (h : r < 10) :
    (Nat.digitChar r).isDigit = true ∧ (Nat.digitChar r).toNat - 48 = r := by
  interval_cases r <;> decide

theorem parseDecimalAux_toDigitsCore (fuel : Nat) : ∀ (n : Nat) (ds : List Char), n < fuel →
    parseDecimalAux (Nat.toDigitsCore 10 fuel n ds) 0 = parseDecimalAux ds n := by
  induction fuel with
  | zero => intro n ds h; omega
  | succ f ih =>
    intro n ds h
    have hd := digitChar_isDigit (n % 10) (Nat.mod_lt _ (by norm_num))
    simp only [Nat.toDigitsCore]
    split_ifs with h0
    · have hn : n % 10 = n := by omega
      rw [hn] at hd
      simp only [parseDecimalAux, hn, hd.1, hd.2, if_true]
      simp
    · rw [ih (n / 10) _ (by omega)]
      simp only [parseDecimalAux, hd.1, hd.2, if_true]
      congr 1
      omega

theorem toDigitsCore_ne_nil (fuel : Nat) : ∀ (n : Nat) (ds : List Char), ds ≠ [] →
    Nat.toDigitsCore 10 fuel n ds ≠ [] := by
  induction fuel with
  | zero => intro n ds h; simpa [Nat.toDigitsCore] using h
  | succ f ih =>
    intro n ds _
    simp only [Nat.toDigitsCore]
    split_ifs
    · simp
    · exact ih _ _ (by simp)

theorem toDigits_ne_nil (n : Nat) : Nat.toDigits 10 n ≠ [] := by
  unfold Nat.toDigits
  simp only [Nat.toDigitsCore]
  split_ifs
  · simp
  · exact toDigitsCore_ne_nil _ _ _ (by simp)

theorem parseDecimal_toString (n : Nat) :
    parseDecimal (toString (n : Int)).data = some n := by
  have h : (toString (n : Int)).data = Nat.toDigits 10 n := rfl
  rw [h]
  unfold parseDecimal
  split
  · rename_i heq
    exact absurd heq (toDigits_ne_nil n)
  · exact parseDecimalAux_toDigitsCore (n + 1) n [] (by omega)

theorem tagsLit_data : "-tags=".data = ['-', 't', 'a', 'g', 's', '='] := rfl

theorem countLit_data : "-count=".data = ['-', 'c', 'o', 'u', 'n', 't', '='] := rfl

theorem isTagToken_tags (s : String) : isTagToken ("-tags=" ++ s) := by
  simp [isTagToken, hasPrefix, String.data_append]

theorem not_isTagToken_count (s : String) : ¬ isTagToken ("-count=" ++ s) := by
  simp [isTagToken, hasPrefix, String.data_append, tagsLit_data, countLit_data]

theorem isCountToken_count (s : String) : isCountToken ("-count=" ++ s) := by
  simp [isCountToken, hasPrefix, String.data_append]

theorem not_isCountToken_tags (s : String) : ¬ isCountToken ("-tags=" ++ s) := by
  simp [isCountToken, hasPrefix, String.data_append, tagsLit_data, countLit_data]

theorem hasSuffix_append (s suf : String) : hasSuffix (s ++ suf) suf := by
  simp [hasSuffix, String.data_append]

theorem not_benchDefault_of_cgo (s : String) : ¬ hasSuffix (s ++ "_cgo") "_bench_default" := by
  have h1 : "_cgo".data = ['_', 'c', 'g', 'o'] := rfl
  have h2 : "_bench_default".data
      = ['_', 'b', 'e', 'n', 'c', 'h', '_', 'd', 'e', 'f', 'a', 'u', 'l', 't'] := rfl
  rw [hasSuffix, ← List.reverse_prefix, String.data_append, h1, h2]
  simp

theorem not_cgo_of_benchDefault (s : String) : ¬ hasSuffix (s ++ "_bench_default") "_cgo" := by
  have h1 : "_cgo".data = ['_', 'c', 'g', 'o'] := rfl
  have h2 : "_bench_default".data
      = ['_', 'b', 'e', 'n', 'c', 'h', '_', 'd', 'e', 'f', 'a', 'u', 'l', 't'] := rfl
  rw [hasSuffix, ← List.reverse_prefix, String.data_append, h1, h2]
  simp

theorem versionPath_eq :
    filepathJoin ["buildtools", "wasm", "version.txt"] = "buildtools/wasm/version.txt" := by
  decide

theorem UpdateLibs_preserves (o : Oracle) (w : World) :
    (UpdateLibs o w).2.files = w.files
    ∧ (UpdateLibs o w).2.updateLibsRuns = w.updateLibsRuns
    ∧ ∃ es, (UpdateLibs o w).2.trace = w.trace ++ es ∧ es.countP Effect.isWriteFile = 0 := by
  unfold UpdateLibs
  simp only [shRunV, osGetwd, osMkdirAll, World.record]
  cases o.RunV w.trace "docker"
      ["build", "-t", "wasilibs-build", "-f",
       filepathJoin ["buildtools", "wasm", "Dockerfile"], "."] with
  | some e => exact ⟨rfl, rfl, _, rfl, rfl⟩
  | none =>
    simp only [Option.map_none']
    cases o.Getwd (w.trace ++ [Effect.RunV "docker"
        ["build", "-t", "wasilibs-build", "-f",
         filepathJoin ["buildtools", "wasm", "Dockerfile"], "."]]) with
    | error e =>
      exact ⟨rfl, rfl, [Effect.RunV "docker"
        ["build", "-t", "wasilibs-build", "-f",
         filepathJoin ["buildtools", "wasm", "Dockerfile"], "."], Effect.Getwd], by simp, rfl⟩
    | ok wd =>
      simp only []
      cases o.MkdirAll (w.trace ++ [Effect.RunV "docker"
          ["build", "-t", "wasilibs-build", "-f",
           filepathJoin ["buildtools", "wasm", "Dockerfile"], "."]] ++ [Effect.Getwd])
          (filepathJoin [wd, "internal", "wasm"]) with
      | some e =>
        exact ⟨rfl, rfl, [Effect.RunV "docker"
          ["build", "-t", "wasilibs-build", "-f",
           filepathJoin ["buildtools", "wasm", "Dockerfile"], "."], Effect.Getwd,
          Effect.MkdirAll (filepathJoin [wd, "internal", "wasm"]) 0o755], by simp, rfl⟩
      | none =>
        exact ⟨rfl, rfl, [Effect.RunV "docker"
          ["build", "-t", "wasilibs-build", "-f",
           filepathJoin ["buildtools", "wasm", "Dockerfile"], "."], Effect.Getwd,
          Effect.MkdirAll (filepathJoin [wd, "internal", "wasm"]) 0o755,
          Effect.RunV "docker" ["run", "--rm", "-v",
            filepathJoin [wd, "internal", "wasm"] ++ ":/out", "wasilibs-build"]],
          by simp, rfl⟩

/-! ## Claim C1 -/

/-- C1: for every package path, count and library name, `BenchArgs` is the
five fixed tokens, then `-count=<count>` exactly when `count > 0`, then the
tag token of the mode (none for Wazero, `-tags=<L>_cgo` for CGO,
`-tags=<L>_bench_default` for Default), then the package path as the final
token; the two worked examples of the specification evaluate as stated. -/
theorem BenchArgs_shape (m : Meta) (pkg : String) (count : Int) :
    BenchArgs m pkg count BenchModeWazero
        = ["test", "-bench=.", "-run=^$", "-v", "-timeout=60m"]
          ++ (if count > 0 then ["-count=" ++ toString count] else [])
          ++ [] ++ [pkg]
    ∧ BenchArgs m pkg count BenchModeCGO
        = ["test", "-bench=.", "-run=^$", "-v", "-timeout=60m"]
          ++ (if count > 0 then ["-count=" ++ toString count] else [])
          ++ ["-tags=" ++ m.LibraryName ++ "_cgo"] ++ [pkg]
    ∧ BenchArgs m pkg count BenchModeDefault
        = ["test", "-bench=.", "-run=^$", "-v", "-timeout=60m"]
          ++ (if count > 0 then ["-count=" ++ toString count] else [])
          ++ ["-tags=" ++ m.LibraryName ++ "_bench_default"] ++ [pkg]
    ∧ (∀ mode : BenchMode, (BenchArgs m pkg count mode).getLast? = some pkg)
    ∧ BenchArgs ⟨"foo", m.LibraryRepo⟩ "./..." 5 BenchModeDefault
        = ["test", "-bench=.", "-run=^$", "-v", "-timeout=60m", "-count=5",
           "-tags=foo_bench_default", "./..."]
    ∧ BenchArgs m "./wafbench" 0 BenchModeWazero
        = ["test", "-bench=.", "-run=^$", "-v", "-timeout=60m", "./wafbench"] := by
  refine ⟨?_, ?_, ?_, ?_, ?_, ?_⟩
  · unfold BenchArgs BenchModeWazero BenchModeCGO BenchModeDefault
    split_ifs <;> simp_all
  · unfold BenchArgs BenchModeCGO
    split_ifs <;> simp_all
  · unfold BenchArgs BenchModeCGO BenchModeDefault
    split_ifs <;> simp_all
  · intro mode
    unfold BenchArgs
    simp
  · have h : "-count=" ++ toString (5 : Int) = "-count=5" := by decide
    have h2 : "-tags=" ++ "foo" ++ "_bench_default" = "-tags=foo_bench_default" := by decide
    simp [BenchArgs, BenchModeCGO, BenchModeDefault, h, h2]
  · simp [BenchArgs, BenchModeWazero, BenchModeCGO, BenchModeDefault]

/-! ## Claim C2 -/

/-- C2, counterexample: with library name `foo`, the list built for the path
`-tags=x_cgo` in mode Default carries a tag token ending in `_bench_default`
and a tag token ending in `_cgo`. -/
theorem BenchArgs_tag_tokens_counterexample :
    (∃ t ∈ BenchArgs ⟨"foo", "owner/foo"⟩ "-tags=x_cgo" 0 BenchModeDefault,
        isTagToken t ∧ hasSuffix t "_bench_default")
    ∧ (∃ t ∈ BenchArgs ⟨"foo", "owner/foo"⟩ "-tags=x_cgo" 0 BenchModeDefault,
        isTagToken t ∧ hasSuffix t "_cgo")
    ∧ (BenchArgs ⟨"foo", "owner/foo"⟩ "-tags=x_cgo" 0 BenchModeDefault).filter
        (fun t => decide (isTagToken t)) = ["-tags=foo_bench_default", "-tags=x_cgo"] := by
  decide

/-- C2, amended: when the package path is not itself of the form `-tags=...`,
the tag tokens of the list built by `BenchArgs` are: none in mode Wazero;
exactly one, `-tags=<L>_cgo`, in mode CGO; exactly one,
`-tags=<L>_bench_default`, in mode Default.  The CGO token ends in `_cgo`,
the Default token in `_bench_default`, and no tag token of a CGO list ends in
`_bench_default` nor one of a Default list in `_cgo`. -/
theorem BenchArgs_tag_tokens (m : Meta) (pkg : String) (count : Int)
    (hpkg : ¬ isTagToken pkg) :
    ((BenchArgs m pkg count BenchModeWazero).filter (fun t => decide (isTagToken t)) = [])
    ∧ ((BenchArgs m pkg count BenchModeCGO).filter (fun t => decide (isTagToken t))
          = ["-tags=" ++ m.LibraryName ++ "_cgo"]
        ∧ hasSuffix ("-tags=" ++ m.LibraryName ++ "_cgo") "_cgo"
        ∧ ∀ t ∈ BenchArgs m pkg count BenchModeCGO,
            isTagToken t → ¬ hasSuffix t "_bench_default")
    ∧ ((BenchArgs m pkg count BenchModeDefault).filter (fun t => decide (isTagToken t))
          = ["-tags=" ++ m.LibraryName ++ "_bench_default"]
        ∧ hasSuffix ("-tags=" ++ m.LibraryName ++ "_bench_default") "_bench_default"
        ∧ ∀ t ∈ BenchArgs m pkg count BenchModeDefault,
            isTagToken t → ¬ hasSuffix t "_cgo") := by
  have e1 : ¬ isTagToken "test" := by decide
  have e2 : ¬ isTagToken "-bench=." := by decide
  have e3 : ¬ isTagToken "-run=^$" := by decide
  have e4 : ¬ isTagToken "-v" := by decide
  have e5 : ¬ isTagToken "-timeout=60m" := by decide
  have ec := not_isTagToken_count (toString count)
  have hc : isTagToken ("-tags=" ++ m.LibraryName ++ "_cgo") := by
    rw [String.append_assoc]; exact isTagToken_tags _
  have hd : isTagToken ("-tags=" ++ m.LibraryName ++ "_bench_default") := by
    rw [String.append_assoc]; exact isTagToken_tags _
  have sc := not_benchDefault_of_cgo ("-tags=" ++ m.LibraryName)
  have sd := not_cgo_of_benchDefault ("-tags=" ++ m.LibraryName)
  refine ⟨?_, ⟨?_, hasSuffix_append _ _, ?_⟩, ⟨?_, hasSuffix_append _ _, ?_⟩⟩
  · unfold BenchArgs BenchModeWazero BenchModeCGO BenchModeDefault
    split_ifs <;> simp_all [List.filter]
  · unfold BenchArgs BenchModeCGO
    split_ifs <;> simp_all [List.filter]
  · intro t ht htag
    have hmem : t ∈ (BenchArgs m pkg count BenchModeCGO).filter
        (fun t => decide (isTagToken t)) := by
      simp [List.mem_filter, ht, htag]
    have hfil : (BenchArgs m pkg count BenchModeCGO).filter
        (fun t => decide (isTagToken t)) = ["-tags=" ++ m.LibraryName ++ "_cgo"] := by
      unfold BenchArgs BenchModeCGO
      split_ifs <;> simp_all [List.filter]
    rw [hfil] at hmem
    simp only [List.mem_singleton] at hmem
    rw [hmem]; exact sc
  · unfold BenchArgs BenchModeCGO BenchModeDefault
    split_ifs <;> simp_all [List.filter]
  · intro t ht htag
    have hmem : t ∈ (BenchArgs m pkg count BenchModeDefault).filter
        (fun t => decide (isTagToken t)) := by
      simp [List.mem_filter, ht, htag]
    have hfil : (BenchArgs m pkg count BenchModeDefault).filter
        (fun t => decide (isTagToken t)) = ["-tags=" ++ m.LibraryName ++ "_bench_default"] := by
      unfold BenchArgs BenchModeCGO BenchModeDefault
      split_ifs <;> simp_all [List.filter]
    rw [hfil] at hmem
    simp only [List.mem_singleton] at hmem
    rw [hmem]; exact sd

/-- C2, witness of the amended statement at library `foo`, path `./...`,
count 5. -/
theorem BenchArgs_tag_tokens_witness :
    ¬ isTagToken "./..."
    ∧ (BenchArgs ⟨"foo", "owner/foo"⟩ "./..." 5 BenchModeCGO).filter
        (fun t => decide (isTagToken t)) = ["-tags=" ++ "foo" ++ "_cgo"] :=
  ⟨by decide, (BenchArgs_tag_tokens ⟨"foo", "owner/foo"⟩ "./..." 5 (by decide)).2.1.1⟩

/-! ## Claim C3 -/

/-- C3, counterexample: with count 0 and the package path `-count=7`, the
list built by `BenchArgs` contains a count token. -/
theorem BenchArgs_count_token_counterexample :
    (0 : Int) ≤ 0
    ∧ ¬ (∀ t ∈ BenchArgs ⟨"foo", "owner/foo"⟩ "-count=7" 0 BenchModeWazero,
          ¬ isCountToken t) := by
  decide

/-- C3, amended: when the package path is not itself of the form
`-count=...`, then for every mode and library name: if `count <= 0` the list
built by `BenchArgs` contains no count token, and if `count > 0` it contains
exactly one count token, `-count=<count>`, whose number parses back to
`count`. -/
theorem BenchArgs_count_token (m : Meta) (pkg : String) (count : Int) (mode : BenchMode)
    (hpkg : ¬ isCountToken pkg) :
    (count ≤ 0 → ∀ t ∈ BenchArgs m pkg count mode, ¬ isCountToken t)
    ∧ (count > 0 →
        (BenchArgs m pkg count mode).filter (fun t => decide (isCountToken t))
            = ["-count=" ++ toString count]
        ∧ countOfToken ("-count=" ++ toString count) = some count) := by
  have e1 : ¬ isCountToken "test" := by decide
  have e2 : ¬ isCountToken "-bench=." := by decide
  have e3 : ¬ isCountToken "-run=^$" := by decide
  have e4 : ¬ isCountToken "-v" := by decide
  have e5 : ¬ isCountToken "-timeout=60m" := by decide
  have ec := isCountToken_count (toString count)
  have hc : ¬ isCountToken ("-tags=" ++ m.LibraryName ++ "_cgo") := by
    rw [String.append_assoc]; exact not_isCountToken_tags _
  have hd : ¬ isCountToken ("-tags=" ++ m.LibraryName ++ "_bench_default") := by
    rw [String.append_assoc]; exact not_isCountToken_tags _
  refine ⟨?_, ?_⟩
  · intro hle t ht
    have hn : ¬ count > 0 := by omega
    unfold BenchArgs at ht
    split_ifs at ht <;> simp at ht <;> rcases ht with h | h | h | h | h | h | h <;>
      simp_all
  · intro hpos
    refine ⟨?_, ?_⟩
    · unfold BenchArgs
      split_ifs <;> simp_all [List.filter]
    · obtain ⟨n, rfl⟩ := Int.eq_ofNat_of_zero_le (le_of_lt hpos)
      unfold countOfToken
      rw [if_pos ec, String.data_append, countLit_data]
      simp only [List.cons_append, List.nil_append, List.drop_succ_cons, List.drop_zero]
      rw [parseDecimal_toString]
      rfl

/-- C3, witness of the amended statement at path `./...`, count 5, mode
Default. -/
theorem BenchArgs_count_token_witness :
    ¬ isCountToken "./..." ∧ (5 : Int) > 0
    ∧ countOfToken ("-count=" ++ toString (5 : Int)) = some 5 :=
  ⟨by decide, by decide,
   ((BenchArgs_count_token ⟨"foo", "owner/foo"⟩ "./..." 5 BenchModeDefault (by decide)).2
      (by decide)).2⟩

/-! ## Claim C5 -/

/-- C5: when directory creation, the three runner executions and the three
file writes succeed, the calls `BenchAll` makes are exactly: create `build`;
run wazero with `BenchArgs("./...", 5, Wazero)` and write its output to
`build/bench.txt`; run CGO and write `build/bench_cgo.txt`; run Default and
write `build/bench_default.txt`; then run the comparison tool once on
`build/bench_default.txt`, `build/bench.txt`, `build/bench_cgo.txt`; the
result of `BenchAll` is the result of the comparison tool. -/
theorem BenchAll_success (v : Versions) (o : Oracle) (w : World) (wz cg df : String)
    (h0 : o.MkdirAll w.trace "build" = none)
    (h1 : o.Output (w.trace ++ [.MkdirAll "build" 0o755]) "go"
            (BenchArgs w.meta "./..." 5 BenchModeWazero) = .ok wz)
    (h2 : o.WriteFile
            (w.trace ++ [.MkdirAll "build" 0o755,
              .Output "go" (BenchArgs w.meta "./..." 5 BenchModeWazero)])
            "build/bench.txt" wz = none)
    (h3 : o.Output
            (w.trace ++ [.MkdirAll "build" 0o755,
              .Output "go" (BenchArgs w.meta "./..." 5 BenchModeWazero),
              .WriteFile "build/bench.txt" wz 0o644]) "go"
            (BenchArgs w.meta "./..." 5 BenchModeCGO) = .ok cg)
    (h4 : o.WriteFile
            (w.trace ++ [.MkdirAll "build" 0o755,
              .Output "go" (BenchArgs w.meta "./..." 5 BenchModeWazero),
              .WriteFile "build/bench.txt" wz 0o644,
              .Output "go" (BenchArgs w.meta "./..." 5 BenchModeCGO)])
            "build/bench_cgo.txt" cg = none)
    (h5 : o.Output
            (w.trace ++ [.MkdirAll "build" 0o755,
              .Output "go" (BenchArgs w.meta "./..." 5 BenchModeWazero),
              .WriteFile "build/bench.txt" wz 0o644,
              .Output "go" (BenchArgs w.meta "./..." 5 BenchModeCGO),
              .WriteFile "build/bench_cgo.txt" cg 0o644]) "go"
            (BenchArgs w.meta "./..." 5 BenchModeDefault) = .ok df)
    (h6 : o.WriteFile
            (w.trace ++ [.MkdirAll "build" 0o755,
              .Output "go" (BenchArgs w.meta "./..." 5 BenchModeWazero),
              .WriteFile "build/bench.txt" wz 0o644,
              .Output "go" (BenchArgs w.meta "./..." 5 BenchModeCGO),
              .WriteFile "build/bench_cgo.txt" cg 0o644,
              .Output "go" (BenchArgs w.meta "./..." 5 BenchModeDefault)])
            "build/bench_default.txt" df = none) :
    (BenchAll v o w).2.trace
        = w.trace ++ [.MkdirAll "build" 0o755,
            .Output "go" (BenchArgs w.meta "./..." 5 BenchModeWazero),
            .WriteFile "build/bench.txt" wz 0o644,
            .Output "go" (BenchArgs w.meta "./..." 5 BenchModeCGO),
            .WriteFile "build/bench_cgo.txt" cg 0o644,
            .Output "go" (BenchArgs w.meta "./..." 5 BenchModeDefault),
            .WriteFile "build/bench_default.txt" df 0o644,
            .RunV "go" ["run", "golang.org/x/perf/cmd/benchstat@" ++ v.GolangPerf,
              "build/bench_default.txt", "build/bench.txt", "build/bench_cgo.txt"]]
    ∧ (BenchAll v o w).1
        = (o.RunV
            (w.trace ++ [.MkdirAll "build" 0o755,
              .Output "go" (BenchArgs w.meta "./..." 5 BenchModeWazero),
              .WriteFile "build/bench.txt" wz 0o644,
              .Output "go" (BenchArgs w.meta "./..." 5 BenchModeCGO),
              .WriteFile "build/bench_cgo.txt" cg 0o644,
              .Output "go" (BenchArgs w.meta "./..." 5 BenchModeDefault),
              .WriteFile "build/bench_default.txt" df 0o644])
            "go" ["run", "golang.org/x/perf/cmd/benchstat@" ++ v.GolangPerf,
              "build/bench_default.txt", "build/bench.txt", "build/bench_cgo.txt"]).map
          GoError.external
    ∧ (BenchAll v o w).2.files
        = ("build/bench_default.txt", df) :: ("build/bench_cgo.txt", cg)
            :: ("build/bench.txt", wz) :: w.files
    ∧ ((BenchAll v o w).2.trace.drop w.trace.length).countP Effect.isRunV = 1 := by
  have j1 : filepathJoin ["build", "bench.txt"] = "build/bench.txt" := by decide
  have j2 : filepathJoin ["build", "bench_cgo.txt"] = "build/bench_cgo.txt" := by decide
  have j3 : filepathJoin ["build", "bench_default.txt"] = "build/bench_default.txt" := by decide
  simp only [List.append_assoc, List.cons_append, List.nil_append] at *
  simp [BenchAll, osMkdirAll, shOutput, osWriteFile, shRunV, fmtPrintln, World.record,
    j1, j2, j3, h0, h1, h2, h3, h4, h5, h6, Effect.isRunV]

/-- C5, witness: with the sample oracle in which every step succeeds, the
three outputs are written and `BenchAll` returns nil. -/
theorem BenchAll_success_witness :
    (BenchAll sampleVersions (scriptedOracle none none) (sampleWorld "" [])).2.files
        = [("build/bench_default.txt", "out5"), ("build/bench_cgo.txt", "out3"),
           ("build/bench.txt", "out1")]
    ∧ (BenchAll sampleVersions (scriptedOracle none none) (sampleWorld "" [])).1 = none :=
  ⟨(BenchAll_success sampleVersions (scriptedOracle none none) (sampleWorld "" [])
      "out1" "out3" "out5" rfl rfl rfl rfl rfl rfl rfl).2.2.1,
   (BenchAll_success sampleVersions (scriptedOracle none none) (sampleWorld "" [])
      "out1" "out3" "out5" rfl rfl rfl rfl rfl rfl rfl).2.1⟩

/-! ## Claim C4 -/

/-- C4: when the directory was created and the runner execution of a mode is
the first step to fail, `BenchAll` returns an error; the calls it made are
the directory creation, the run and the write of each earlier mode and the
failed run, so there is no write for the failed mode or a later one, no later
run and no call of the comparison tool; the files of the earlier modes are
in place.  When the CGO run fails, `build/bench.txt` holds the wazero output
and `build/bench_default.txt` is untouched. -/
theorem BenchAll_runner_failure (v : Versions) (o : Oracle) (w : World)
    (wz cg e : String) (h0 : o.MkdirAll w.trace "build" = none) :
    (o.Output (w.trace ++ [.MkdirAll "build" 0o755]) "go"
          (BenchArgs w.meta "./..." 5 BenchModeWazero) = .error e →
        (BenchAll v o w).1 = some (.errorfW "error running wazero benchmarks: " (.external e))
        ∧ (BenchAll v o w).2.trace
            = w.trace ++ [.MkdirAll "build" 0o755,
                .Output "go" (BenchArgs w.meta "./..." 5 BenchModeWazero)]
        ∧ (BenchAll v o w).2.files = w.files)
    ∧ (o.Output (w.trace ++ [.MkdirAll "build" 0o755]) "go"
          (BenchArgs w.meta "./..." 5 BenchModeWazero) = .ok wz →
       o.WriteFile
          (w.trace ++ [.MkdirAll "build" 0o755,
            .Output "go" (BenchArgs w.meta "./..." 5 BenchModeWazero)])
          "build/bench.txt" wz = none →
       o.Output
          (w.trace ++ [.MkdirAll "build" 0o755,
            .Output "go" (BenchArgs w.meta "./..." 5 BenchModeWazero),
            .WriteFile "build/bench.txt" wz 0o644]) "go"
          (BenchArgs w.meta "./..." 5 BenchModeCGO) = .error e →
        (BenchAll v o w).1 = some (.errorfW "error running cgo benchmarks: " (.external e))
        ∧ (BenchAll v o w).2.trace
            = w.trace ++ [.MkdirAll "build" 0o755,
                .Output "go" (BenchArgs w.meta "./..." 5 BenchModeWazero),
                .WriteFile "build/bench.txt" wz 0o644,
                .Output "go" (BenchArgs w.meta "./..." 5 BenchModeCGO)]
        ∧ (BenchAll v o w).2.files = ("build/bench.txt", wz) :: w.files
        ∧ (BenchAll v o w).2.files.lookup "build/bench.txt" = some wz
        ∧ (BenchAll v o w).2.files.lookup "build/bench_default.txt"
            = w.files.lookup "build/bench_default.txt"
        ∧ ((BenchAll v o w).2.trace.drop w.trace.length).countP Effect.isRunV = 0)
    ∧ (o.Output (w.trace ++ [.MkdirAll "build" 0o755]) "go"
          (BenchArgs w.meta "./..." 5 BenchModeWazero) = .ok wz →
       o.WriteFile
          (w.trace ++ [.MkdirAll "build" 0o755,
            .Output "go" (BenchArgs w.meta "./..." 5 BenchModeWazero)])
          "build/bench.txt" wz = none →
       o.Output
          (w.trace ++ [.MkdirAll "build" 0o755,
            .Output "go" (BenchArgs w.meta "./..." 5 BenchModeWazero),
            .WriteFile "build/bench.txt" wz 0o644]) "go"
          (BenchArgs w.meta "./..." 5 BenchModeCGO) = .ok cg →
       o.WriteFile
          (w.trace ++ [.MkdirAll "build" 0o755,
            .Output "go" (BenchArgs w.meta "./..." 5 BenchModeWazero),
            .WriteFile "build/bench.txt" wz 0o644,
            .Output "go" (BenchArgs w.meta "./..." 5 BenchModeCGO)])
          "build/bench_cgo.txt" cg = none →
       o.Output
          (w.trace ++ [.MkdirAll "build" 0o755,
            .Output "go" (BenchArgs w.meta "./..." 5 BenchModeWazero),
            .WriteFile "build/bench.txt" wz 0o644,
            .Output "go" (BenchArgs w.meta "./..." 5 BenchModeCGO),
            .WriteFile "build/bench_cgo.txt" cg 0o644]) "go"
          (BenchArgs w.meta "./..." 5 BenchModeDefault) = .error e →
        (BenchAll v o w).1 = some (.errorfW "error running default benchmarks: " (.external e))
        ∧ (BenchAll v o w).2.trace
            = w.trace ++ [.MkdirAll "build" 0o755,
                .Output "go" (BenchArgs w.meta "./..." 5 BenchModeWazero),
                .WriteFile "build/bench.txt" wz 0o644,
                .Output "go" (BenchArgs w.meta "./..." 5 BenchModeCGO),
                .WriteFile "build/bench_cgo.txt" cg 0o644,
                .Output "go" (BenchArgs w.meta "./..." 5 BenchModeDefault)]
        ∧ (BenchAll v o w).2.files
            = ("build/bench_cgo.txt", cg) :: ("build/bench.txt", wz) :: w.files) := by
  have j1 : filepathJoin ["build", "bench.txt"] = "build/bench.txt" := by decide
  have j2 : filepathJoin ["build", "bench_cgo.txt"] = "build/bench_cgo.txt" := by decide
  have k1 : ("build/bench_default.txt" == "build/bench.txt") = false := by decide
  simp only [List.append_assoc, List.cons_append, List.nil_append] at *
  refine ⟨?_, ?_, ?_⟩
  · intro h1
    simp [BenchAll, osMkdirAll, shOutput, fmtPrintln, World.record, h0, h1]
  · intro h1 h2 h3
    simp [BenchAll, osMkdirAll, shOutput, osWriteFile, fmtPrintln, World.record,
      j1, h0, h1, h2, h3, Effect.isRunV, List.lookup, k1]
  · intro h1 h2 h3 h4 h5
    simp [BenchAll, osMkdirAll, shOutput, osWriteFile, fmtPrintln, World.record,
      j1, j2, h0, h1, h2, h3, h4, h5]

/-- C4, witness: with the sample oracle whose fourth step (the CGO run) fails,
and `build/bench_default.txt` absent beforehand, `BenchAll` returns the CGO
error, `build/bench.txt` holds the wazero output and
`build/bench_default.txt` is still absent. -/
theorem BenchAll_runner_failure_witness :
    (BenchAll sampleVersions (scriptedOracle (some 3) none) (sampleWorld "" [])).1
        = some (.errorfW "error running cgo benchmarks: "
            (.external ("running \"go test -bench=. -run=^$ -v -timeout=60m -count=5 "
              ++ "-tags=foo_cgo ./...\" failed with exit code 1")))
    ∧ (BenchAll sampleVersions (scriptedOracle (some 3) none)
        (sampleWorld "" [])).2.files.lookup "build/bench.txt" = some "out1"
    ∧ (BenchAll sampleVersions (scriptedOracle (some 3) none)
        (sampleWorld "" [])).2.files.lookup "build/bench_default.txt" = none :=
  have h := (BenchAll_runner_failure sampleVersions (scriptedOracle (some 3) none)
      (sampleWorld "" []) "out1" ""
      ("running \"go test -bench=. -run=^$ -v -timeout=60m -count=5 "
        ++ "-tags=foo_cgo ./...\" failed with exit code 1") rfl).2.1 rfl rfl rfl
  ⟨h.1, h.2.2.2.1, h.2.2.2.2.1⟩

/-! ## Claim C6 -/

/-- C6, the code at the failing input: the library name is `$` (set with
`SetLibraryName`), the variables `_cgo` and `_bench_default` are unset, and a
run fails with exit code 1, its error being the one `sh.Output` builds.
`WAFBenchAll` stops at the failed run and returns the error of the runner as
it is: the same error whether the CGO run or the Default run failed, so the
error does not tell which of the two modes failed.  `BenchAll` at the same
input wraps the error of the runner in a message that names the mode. -/
theorem WAFBenchAll_failure_names_no_mode :
    (scriptedOracle (some 3) none).Output
        [.MkdirAll "build" 0o755,
         .Output "go" (BenchArgs ⟨"$", "owner/foo"⟩ "./wafbench" 5 BenchModeWazero),
         .WriteFile "build/wafbench.txt" "out1" 0o644]
        "go" (BenchArgs ⟨"$", "owner/foo"⟩ "./wafbench" 5 BenchModeCGO)
      = .error (shRanFailure (SetLibraryName (sampleWorld "" []) "$").env "go"
          (BenchArgs ⟨"$", "owner/foo"⟩ "./wafbench" 5 BenchModeCGO) 1)
    ∧ (WAFBenchAll sampleVersions (scriptedOracle (some 3) none)
        (SetLibraryName (sampleWorld "" []) "$")).2.trace
        = [.MkdirAll "build" 0o755,
           .Output "go" (BenchArgs ⟨"$", "owner/foo"⟩ "./wafbench" 5 BenchModeWazero),
           .WriteFile "build/wafbench.txt" "out1" 0o644,
           .Output "go" (BenchArgs ⟨"$", "owner/foo"⟩ "./wafbench" 5 BenchModeCGO)]
    ∧ (WAFBenchAll sampleVersions (scriptedOracle (some 5) none)
        (SetLibraryName (sampleWorld "" []) "$")).2.trace
        = [.MkdirAll "build" 0o755,
           .Output "go" (BenchArgs ⟨"$", "owner/foo"⟩ "./wafbench" 5 BenchModeWazero),
           .WriteFile "build/wafbench.txt" "out1" 0o644,
           .Output "go" (BenchArgs ⟨"$", "owner/foo"⟩ "./wafbench" 5 BenchModeCGO),
           .WriteFile "build/wafbench_cgo.txt" "out3" 0o644,
           .Output "go" (BenchArgs ⟨"$", "owner/foo"⟩ "./wafbench" 5 BenchModeDefault)]
    ∧ (WAFBenchAll sampleVersions (scriptedOracle (some 3) none)
        (SetLibraryName (sampleWorld "" []) "$")).1
        = some (.external ("running \"go test -bench=. -run=^$ -v -timeout=60m -count=5 "
            ++ "-tags= ./wafbench\" failed with exit code 1"))
    ∧ (WAFBenchAll sampleVersions (scriptedOracle (some 5) none)
        (SetLibraryName (sampleWorld "" []) "$")).1
        = some (.external ("running \"go test -bench=. -run=^$ -v -timeout=60m -count=5 "
            ++ "-tags= ./wafbench\" failed with exit code 1"))
    ∧ (BenchAll sampleVersions (scriptedOracle (some 3) none)
        (SetLibraryName (sampleWorld "" []) "$")).1
        = some (.errorfW "error running cgo benchmarks: "
            (.external ("running \"go test -bench=. -run=^$ -v -timeout=60m -count=5 "
              ++ "-tags= ./...\" failed with exit code 1")))
    ∧ (BenchAll sampleVersions (scriptedOracle (some 5) none)
        (SetLibraryName (sampleWorld "" []) "$")).1
        = some (.errorfW "error running default benchmarks: "
            (.external ("running \"go test -bench=. -run=^$ -v -timeout=60m -count=5 "
              ++ "-tags= ./...\" failed with exit code 1")))
    ∧ (GoError.errorfW "error running cgo benchmarks: "
          (.external ("running \"go test -bench=. -run=^$ -v -timeout=60m -count=5 "
            ++ "-tags= ./...\" failed with exit code 1"))).Unwrap
        = some (.external ("running \"go test -bench=. -run=^$ -v -timeout=60m -count=5 "
            ++ "-tags= ./...\" failed with exit code 1")) := by
  refine ⟨rfl, ?_, ?_, ?_, ?_, ?_, ?_, ?_⟩ <;> decide

/-! ## Claim C10 -/

/-- C10: `Format` returns an error exactly when its first command (gofumpt)
fails; then it returns that error and runs nothing else.  When the first
command succeeds, the second (gosimports) is run and `Format` returns nil
whatever the second command returns. -/
theorem Format_second_error_swallowed (v : Versions) (o : Oracle) (w : World) :
    ((Format v o w).1 ≠ none
        ↔ o.RunV w.trace "go" ["run", "mvdan.cc/gofumpt@" ++ v.GoFumpt, "-l", "-w", "."] ≠ none)
    ∧ (∀ e, o.RunV w.trace "go" ["run", "mvdan.cc/gofumpt@" ++ v.GoFumpt, "-l", "-w", "."]
            = some e →
        (Format v o w).1 = some (.external e)
        ∧ (Format v o w).2.trace
            = w.trace ++ [.RunV "go" ["run", "mvdan.cc/gofumpt@" ++ v.GoFumpt, "-l", "-w", "."]])
    ∧ (o.RunV w.trace "go" ["run", "mvdan.cc/gofumpt@" ++ v.GoFumpt, "-l", "-w", "."] = none →
        (Format v o w).1 = none
        ∧ (Format v o w).2.trace
            = w.trace ++ [.RunV "go" ["run", "mvdan.cc/gofumpt@" ++ v.GoFumpt, "-l", "-w", "."],
                .RunV "go" ["run",
                  "github.com/rinchsan/gosimports/cmd/gosimports@" ++ v.GosImports, "-w",
                  "-local", "github.com/wasilibs", "."]]) := by
  cases h1 : o.RunV w.trace "go" ["run", "mvdan.cc/gofumpt@" ++ v.GoFumpt, "-l", "-w", "."] with
  | some e => simp [Format, shRunV, World.record, h1]
  | none =>
    cases h2 : o.RunV
        (w.trace ++ [.RunV "go" ["run", "mvdan.cc/gofumpt@" ++ v.GoFumpt, "-l", "-w", "."]])
        "go" ["run", "github.com/rinchsan/gosimports/cmd/gosimports@" ++ v.GosImports, "-w",
          "-local", "github.com/wasilibs", "."] <;>
      simp [Format, shRunV, World.record, h1, h2]

/-- C10, witness: with the sample oracle whose second step (gosimports)
fails, `Format` runs both commands and returns nil; with the oracle whose
first step fails it returns that error. -/
theorem Format_second_error_swallowed_witness :
    (scriptedOracle (some 1) none).RunV
        [.RunV "go" ["run", "mvdan.cc/gofumpt@" ++ sampleVersions.GoFumpt, "-l", "-w", "."]]
        "go" ["run", "github.com/rinchsan/gosimports/cmd/gosimports@"
          ++ sampleVersions.GosImports, "-w", "-local", "github.com/wasilibs", "."]
        = some ("running \"go run github.com/rinchsan/gosimports/cmd/gosimports@v0.3.8 -w "
            ++ "-local github.com/wasilibs .\" failed with exit code 1")
    ∧ (Format sampleVersions (scriptedOracle (some 1) none) (sampleWorld "" [])).1 = none
    ∧ (Format sampleVersions (scriptedOracle (some 0) none) (sampleWorld "" [])).1
        = some (.external
            "running \"go run mvdan.cc/gofumpt@v0.6.0 -l -w .\" failed with exit code 1") :=
  ⟨rfl,
   ((Format_second_error_swallowed sampleVersions (scriptedOracle (some 1) none)
      (sampleWorld "" [])).2.2 rfl).1,
   ((Format_second_error_swallowed sampleVersions (scriptedOracle (some 0) none)
      (sampleWorld "" [])).2.1
      "running \"go run mvdan.cc/gofumpt@v0.6.0 -l -w .\" failed with exit code 1" rfl).1⟩

/-! ## Claim C8 -/

/-- C8, counterexample: the value `CGO` of `WASI_TEST_MODE` is neither `cgo`
nor `tinygo`, yet `buildTags` returns `foo_cgo` for library `foo`; and the
value `TinyGo` makes `Test` run `tinygo`. -/
theorem buildTags_other_value_counterexample :
    "CGO" ≠ "cgo" ∧ "CGO" ≠ "tinygo"
    ∧ buildTags (scriptedOracle none none) (sampleWorld "CGO" []) = "foo_cgo"
    ∧ buildTags (scriptedOracle none none) (sampleWorld "CGO" []) ≠ ""
    ∧ "TinyGo" ≠ "cgo" ∧ "TinyGo" ≠ "tinygo"
    ∧ (Test (scriptedOracle none none) (sampleWorld "TinyGo" [])).2.trace
        = [.RunV "tinygo" ["test", "-target=wasi", "-v", "-tags", "", "./..."]] := by
  refine ⟨?_, ?_, ?_, ?_, ?_, ?_, ?_⟩ <;> decide

/-- C8, amended: the value `v` of `WASI_TEST_MODE` is compared in lower case.
If `v` is `cgo`, or any value whose lower-case form is `cgo`, `buildTags` is
exactly `<L>_cgo`; if `v` is `tinygo`, or any value whose lower-case form is
`tinygo`, `Test` runs `tinygo` (with an empty tag list); if the lower-case
form of `v` is not `cgo`, `buildTags` is the empty string; if it is not
`tinygo`, `Test` runs `go` with the tags of `buildTags`; an unset or empty
variable gives `go` and no tag. -/
theorem buildTags_Test_mode (o : Oracle) (w : World) :
    (w.env "WASI_TEST_MODE" = "cgo" → buildTags o w = w.meta.LibraryName ++ "_cgo")
    ∧ (stringsToLower o (w.env "WASI_TEST_MODE") = "cgo" →
        buildTags o w = w.meta.LibraryName ++ "_cgo")
    ∧ (w.env "WASI_TEST_MODE" = "tinygo" →
        (Test o w).2.trace
          = w.trace ++ [.RunV "tinygo" ["test", "-target=wasi", "-v", "-tags", "", "./..."]])
    ∧ (stringsToLower o (w.env "WASI_TEST_MODE") = "tinygo" →
        (Test o w).2.trace
          = w.trace ++ [.RunV "tinygo" ["test", "-target=wasi", "-v", "-tags", "", "./..."]])
    ∧ (stringsToLower o (w.env "WASI_TEST_MODE") ≠ "cgo" → buildTags o w = "")
    ∧ (stringsToLower o (w.env "WASI_TEST_MODE") ≠ "tinygo" →
        (Test o w).2.trace
          = w.trace ++ [.RunV "go" ["test", "-v", "-timeout=20m", "-tags", buildTags o w,
              "./..."]])
    ∧ (w.env "WASI_TEST_MODE" = "" →
        buildTags o w = ""
        ∧ (Test o w).2.trace
          = w.trace ++ [.RunV "go" ["test", "-v", "-timeout=20m", "-tags", "", "./..."]]) := by
  have lc : stringsToLower o "cgo" = "cgo" := rfl
  have lt : stringsToLower o "tinygo" = "tinygo" := rfl
  have le : stringsToLower o "" = "" := rfl
  have nc : ¬ ("tinygo" = "cgo") := by decide
  have ne1 : ¬ ("" = "cgo") := by decide
  have ne2 : ¬ ("" = "tinygo") := by decide
  have join1 : ∀ x : String, stringsJoin [x] "," = x := fun _ => rfl
  have join0 : stringsJoin [] "," = "" := rfl
  have hcgo : stringsToLower o (w.env "WASI_TEST_MODE") = "cgo" →
      buildTags o w = w.meta.LibraryName ++ "_cgo" := by
    intro h
    simp [buildTags, osGetenv, h, join1]
  have hnocgo : stringsToLower o (w.env "WASI_TEST_MODE") ≠ "cgo" → buildTags o w = "" := by
    intro h
    simp [buildTags, osGetenv, h, join0]
  have htiny : stringsToLower o (w.env "WASI_TEST_MODE") = "tinygo" →
      (Test o w).2.trace
        = w.trace ++ [.RunV "tinygo" ["test", "-target=wasi", "-v", "-tags", "", "./..."]] := by
    intro h
    have hb : buildTags o w = "" := hnocgo (by rw [h]; exact nc)
    simp [Test, osGetenv, h, hb, shRunV, World.record]
  have hgo : stringsToLower o (w.env "WASI_TEST_MODE") ≠ "tinygo" →
      (Test o w).2.trace
        = w.trace ++ [.RunV "go" ["test", "-v", "-timeout=20m", "-tags", buildTags o w,
            "./..."]] := by
    intro h
    simp [Test, osGetenv, h, shRunV, World.record]
  refine ⟨?_, hcgo, ?_, htiny, hnocgo, hgo, ?_⟩
  · intro h
    exact hcgo (by rw [h]; exact lc)
  · intro h
    exact htiny (by rw [h]; exact lt)
  · intro h
    have hb : buildTags o w = "" := hnocgo (by rw [h, le]; exact ne1)
    refine ⟨hb, ?_⟩
    rw [← hb]
    exact hgo (by rw [h, le]; exact ne2)

/-- C8, witness: in the sample world with `WASI_TEST_MODE=cgo` the tag is
`foo_cgo`, and with the variable unset `Test` runs `go` without a tag. -/
theorem buildTags_Test_mode_witness :
    buildTags (scriptedOracle none none) (sampleWorld "cgo" []) = "foo" ++ "_cgo"
    ∧ (Test (scriptedOracle none none) (sampleWorld "" [])).2.trace
        = [] ++ [.RunV "go" ["test", "-v", "-timeout=20m", "-tags", "", "./..."]] :=
  ⟨(buildTags_Test_mode (scriptedOracle none none) (sampleWorld "cgo" [])).1 rfl,
   ((buildTags_Test_mode (scriptedOracle none none) (sampleWorld "" [])).2.2.2.2.2.2 rfl).2⟩

/-! ## Claim C7 -/

/-- C7, counterexample: the version file holds `v1.0.0`, reading it and
fetching the release `v1.1.0` succeed, and the write of the file fails after
the file was opened: the file is left empty, it does not hold `v1.1.0`,
`UpdateLibs` was not run, and the error of the write is returned. -/
theorem UpdateUpstream_write_failure_counterexample :
    (UpdateUpstream (scriptedOracle (some 3) (some ⟨some "v1.1.0"⟩))
        (sampleWorld "" [("buildtools/wasm/version.txt", "v1.0.0")])).2.trace
      = [.ReadFile "buildtools/wasm/version.txt", .DefaultRESTClient,
         .Get "repos/owner/foo/releases/latest",
         .WriteFile "buildtools/wasm/version.txt" "v1.1.0" 0o644]
    ∧ (UpdateUpstream (scriptedOracle (some 3) (some ⟨some "v1.1.0"⟩))
        (sampleWorld "" [("buildtools/wasm/version.txt", "v1.0.0")])).2.files.lookup
          "buildtools/wasm/version.txt" = some ""
    ∧ (UpdateUpstream (scriptedOracle (some 3) (some ⟨some "v1.1.0"⟩))
        (sampleWorld "" [("buildtools/wasm/version.txt", "v1.0.0")])).2.files.lookup
          "buildtools/wasm/version.txt" ≠ some "v1.1.0"
    ∧ (UpdateUpstream (scriptedOracle (some 3) (some ⟨some "v1.1.0"⟩))
        (sampleWorld "" [("buildtools/wasm/version.txt", "v1.0.0")])).2.updateLibsRuns = 0
    ∧ (UpdateUpstream (scriptedOracle (some 3) (some ⟨some "v1.1.0"⟩))
        (sampleWorld "" [("buildtools/wasm/version.txt", "v1.0.0")])).1
      = .returned (some (.external "disk full")) := by
  refine ⟨?_, ?_, ?_, ?_, ?_⟩ <;> decide

/-- C7, amended: when reading the version file (content `c`), creating the
client and fetching the latest release (tag `t`) succeed: if `t` equals the
tag recorded in the file (`c` with surrounding white space removed), nothing
is written, `UpdateLibs` is not run and nil is returned; if it differs and
the write of the file succeeds, the file holds exactly `t`, that write is the
only one, and `UpdateLibs` is run exactly once. -/
theorem UpdateUpstream_compare (o : Oracle) (w : World) (c : String)
    (release : RepositoryRelease)
    (hr : o.ReadFile w.trace "buildtools/wasm/version.txt" = none)
    (hc : w.files.lookup "buildtools/wasm/version.txt" = some c)
    (hcl : o.DefaultRESTClient (w.trace ++ [.ReadFile "buildtools/wasm/version.txt"]) = none)
    (hg : o.Get (w.trace ++ [.ReadFile "buildtools/wasm/version.txt", .DefaultRESTClient])
            ("repos/" ++ w.meta.LibraryRepo ++ "/releases/latest") = .ok (some release)) :
    (release.GetTagName = stringsTrimSpace c →
        (UpdateUpstream o w).1 = .returned none
        ∧ (UpdateUpstream o w).2.trace
            = w.trace ++ [.ReadFile "buildtools/wasm/version.txt", .DefaultRESTClient,
                .Get ("repos/" ++ w.meta.LibraryRepo ++ "/releases/latest")]
        ∧ (UpdateUpstream o w).2.files = w.files
        ∧ (UpdateUpstream o w).2.updateLibsRuns = w.updateLibsRuns)
    ∧ (release.GetTagName ≠ stringsTrimSpace c →
       o.WriteFile
          (w.trace ++ [.ReadFile "buildtools/wasm/version.txt", .DefaultRESTClient,
            .Get ("repos/" ++ w.meta.LibraryRepo ++ "/releases/latest")])
          "buildtools/wasm/version.txt" release.GetTagName = none →
        (UpdateUpstream o w).2.files
            = ("buildtools/wasm/version.txt", release.GetTagName) :: w.files
        ∧ (UpdateUpstream o w).2.files.lookup "buildtools/wasm/version.txt"
            = some release.GetTagName
        ∧ (UpdateUpstream o w).2.updateLibsRuns = w.updateLibsRuns + 1
        ∧ ∃ es, (UpdateUpstream o w).2.trace
              = w.trace ++ [.ReadFile "buildtools/wasm/version.txt", .DefaultRESTClient,
                  .Get ("repos/" ++ w.meta.LibraryRepo ++ "/releases/latest"),
                  .WriteFile "buildtools/wasm/version.txt" release.GetTagName 0o644] ++ es
            ∧ es.countP Effect.isWriteFile = 0) := by
  simp only [List.append_assoc, List.cons_append, List.nil_append] at *
  refine ⟨?_, ?_⟩
  · intro heq
    simp [UpdateUpstream, osReadFile, apiDefaultRESTClient, ghGet, fmtPrintln, World.record,
      versionPath_eq, hr, hc, hcl, hg, heq]
  · intro hne hw
    have key : UpdateUpstream o w
        = (match mgDepsUpdateLibs o
            { meta := w.meta, env := w.env,
              files := ("buildtools/wasm/version.txt", release.GetTagName) :: w.files,
              stdout := w.stdout ++ ["updating to " ++ release.GetTagName],
              trace := w.trace ++ [.ReadFile "buildtools/wasm/version.txt", .DefaultRESTClient,
                .Get ("repos/" ++ w.meta.LibraryRepo ++ "/releases/latest"),
                .WriteFile "buildtools/wasm/version.txt" release.GetTagName 0o644],
              updateLibsRuns := w.updateLibsRuns } with
          | (some err, w) => (Exit.panicked err, w)
          | (none, w) => (Exit.returned none, w)) := by
      simp [UpdateUpstream, osReadFile, apiDefaultRESTClient, ghGet, osWriteFile, fmtPrintln,
        World.record, versionPath_eq, hr, hc, hcl, hg, hne, hw]
    rw [key]
    obtain ⟨hf, hn, es, ht, hes⟩ := UpdateLibs_preserves o
      { meta := w.meta, env := w.env,
        files := ("buildtools/wasm/version.txt", release.GetTagName) :: w.files,
        stdout := w.stdout ++ ["updating to " ++ release.GetTagName],
        trace := w.trace ++ [.ReadFile "buildtools/wasm/version.txt", .DefaultRESTClient,
          .Get ("repos/" ++ w.meta.LibraryRepo ++ "/releases/latest"),
          .WriteFile "buildtools/wasm/version.txt" release.GetTagName 0o644],
        updateLibsRuns := w.updateLibsRuns + 1 }
    simp only [mgDepsUpdateLibs]
    split <;> rename_i heq <;>
      · have h2 := congrArg Prod.snd heq
        simp only at h2
        subst h2
        refine ⟨hf, ?_, hn, es, ?_, hes⟩
        · rw [hf]; simp [List.lookup]
        · rw [ht]; simp

/-- C7, witness: the version file holds `v1.0.0` and every step succeeds.
With the latest tag `v1.0.0` nothing is written and `UpdateLibs` is not run;
with the latest tag `v1.1.0` the file holds `v1.1.0` and `UpdateLibs` was run
once. -/
theorem UpdateUpstream_compare_witness :
    ((UpdateUpstream (scriptedOracle none (some ⟨some "v1.0.0"⟩))
          (sampleWorld "" [("buildtools/wasm/version.txt", "v1.0.0")])).1 = .returned none
      ∧ (UpdateUpstream (scriptedOracle none (some ⟨some "v1.0.0"⟩))
          (sampleWorld "" [("buildtools/wasm/version.txt", "v1.0.0")])).2.files
          = [("buildtools/wasm/version.txt", "v1.0.0")]
      ∧ (UpdateUpstream (scriptedOracle none (some ⟨some "v1.0.0"⟩))
          (sampleWorld "" [("buildtools/wasm/version.txt", "v1.0.0")])).2.updateLibsRuns = 0)
    ∧ ((UpdateUpstream (scriptedOracle none (some ⟨some "v1.1.0"⟩))
          (sampleWorld "" [("buildtools/wasm/version.txt", "v1.0.0")])).2.files.lookup
            "buildtools/wasm/version.txt" = some "v1.1.0"
      ∧ (UpdateUpstream (scriptedOracle none (some ⟨some "v1.1.0"⟩))
          (sampleWorld "" [("buildtools/wasm/version.txt", "v1.0.0")])).2.updateLibsRuns
          = 0 + 1) :=
  have h1 := (UpdateUpstream_compare (scriptedOracle none (some ⟨some "v1.0.0"⟩))
      (sampleWorld "" [("buildtools/wasm/version.txt", "v1.0.0")]) "v1.0.0" ⟨some "v1.0.0"⟩
      rfl rfl rfl rfl).1 (by decide)
  have h2 := (UpdateUpstream_compare (scriptedOracle none (some ⟨some "v1.1.0"⟩))
      (sampleWorld "" [("buildtools/wasm/version.txt", "v1.0.0")]) "v1.0.0" ⟨some "v1.1.0"⟩
      rfl rfl rfl rfl).2 (by decide) rfl
  ⟨⟨h1.1, h1.2.2.1, h1.2.2.2⟩, ⟨h2.2.1, h2.2.2.1⟩⟩

/-! ## Claim C9 -/

/-- C9: if reading the version file fails, or creating the client fails, or
the release lookup fails, or the lookup yields no release, `UpdateUpstream`
returns an error at that step: the calls made end with the failed step, no
file is written and `UpdateLibs` is not run.  A lookup that yields no release
returns the error `could not find releases`, made with `errors.New`, which is
neither nil nor an error handed back by a collaborator. -/
theorem UpdateUpstream_errors (o : Oracle) (w : World) :
    (∀ e, o.ReadFile w.trace "buildtools/wasm/version.txt" = some e →
        (UpdateUpstream o w).1 = .returned (some (.external e))
        ∧ (UpdateUpstream o w).2.trace = w.trace ++ [.ReadFile "buildtools/wasm/version.txt"]
        ∧ (UpdateUpstream o w).2.files = w.files
        ∧ (UpdateUpstream o w).2.updateLibsRuns = w.updateLibsRuns)
    ∧ (o.ReadFile w.trace "buildtools/wasm/version.txt" = none →
       w.files.lookup "buildtools/wasm/version.txt" = none →
        (UpdateUpstream o w).1 = .returned (some (.external "file does not exist"))
        ∧ (UpdateUpstream o w).2.trace = w.trace ++ [.ReadFile "buildtools/wasm/version.txt"]
        ∧ (UpdateUpstream o w).2.files = w.files
        ∧ (UpdateUpstream o w).2.updateLibsRuns = w.updateLibsRuns)
    ∧ (∀ c e, o.ReadFile w.trace "buildtools/wasm/version.txt" = none →
       w.files.lookup "buildtools/wasm/version.txt" = some c →
       o.DefaultRESTClient (w.trace ++ [.ReadFile "buildtools/wasm/version.txt"]) = some e →
        (UpdateUpstream o w).1 = .returned (some (.external e))
        ∧ (UpdateUpstream o w).2.trace
            = w.trace ++ [.ReadFile "buildtools/wasm/version.txt", .DefaultRESTClient]
        ∧ (UpdateUpstream o w).2.files = w.files
        ∧ (UpdateUpstream o w).2.updateLibsRuns = w.updateLibsRuns)
    ∧ (∀ c e, o.ReadFile w.trace "buildtools/wasm/version.txt" = none →
       w.files.lookup "buildtools/wasm/version.txt" = some c →
       o.DefaultRESTClient (w.trace ++ [.ReadFile "buildtools/wasm/version.txt"]) = none →
       o.Get (w.trace ++ [.ReadFile "buildtools/wasm/version.txt", .DefaultRESTClient])
          ("repos/" ++ w.meta.LibraryRepo ++ "/releases/latest") = .error e →
        (UpdateUpstream o w).1 = .returned (some (.external e))
        ∧ (UpdateUpstream o w).2.trace
            = w.trace ++ [.ReadFile "buildtools/wasm/version.txt", .DefaultRESTClient,
                .Get ("repos/" ++ w.meta.LibraryRepo ++ "/releases/latest")]
        ∧ (UpdateUpstream o w).2.files = w.files
        ∧ (UpdateUpstream o w).2.updateLibsRuns = w.updateLibsRuns)
    ∧ (∀ c, o.ReadFile w.trace "buildtools/wasm/version.txt" = none →
       w.files.lookup "buildtools/wasm/version.txt" = some c →
       o.DefaultRESTClient (w.trace ++ [.ReadFile "buildtools/wasm/version.txt"]) = none →
       o.Get (w.trace ++ [.ReadFile "buildtools/wasm/version.txt", .DefaultRESTClient])
          ("repos/" ++ w.meta.LibraryRepo ++ "/releases/latest") = .ok none →
        (UpdateUpstream o w).1 = .returned (some (.errorsNew "could not find releases"))
        ∧ (UpdateUpstream o w).1 ≠ .returned none
        ∧ (∀ e, (UpdateUpstream o w).1 ≠ .returned (some (.external e)))
        ∧ (UpdateUpstream o w).2.trace
            = w.trace ++ [.ReadFile "buildtools/wasm/version.txt", .DefaultRESTClient,
                .Get ("repos/" ++ w.meta.LibraryRepo ++ "/releases/latest")]
        ∧ (UpdateUpstream o w).2.files = w.files
        ∧ (UpdateUpstream o w).2.updateLibsRuns = w.updateLibsRuns) := by
  refine ⟨?_, ?_, ?_, ?_, ?_⟩
  · intro e hr
    simp [UpdateUpstream, osReadFile, World.record, versionPath_eq, hr]
  · intro hr hc
    simp [UpdateUpstream, osReadFile, World.record, versionPath_eq, hr, hc]
  · intro c e hr hc hcl
    simp [UpdateUpstream, osReadFile, apiDefaultRESTClient, World.record, versionPath_eq,
      hr, hc, hcl]
  · intro c e hr hc hcl hg
    simp [UpdateUpstream, osReadFile, apiDefaultRESTClient, ghGet, World.record,
      versionPath_eq, hr, hc, hcl, hg]
  · intro c hr hc hcl hg
    simp [UpdateUpstream, osReadFile, apiDefaultRESTClient, ghGet, World.record,
      versionPath_eq, hr, hc, hcl, hg]

/-- C9, witness: the version file holds `v1.0.0`.  When the lookup yields no
release the result is the error `could not find releases`; when the lookup
fails its error is returned; in both cases the file still holds `v1.0.0`. -/
theorem UpdateUpstream_errors_witness :
    (UpdateUpstream (scriptedOracle none none)
        (sampleWorld "" [("buildtools/wasm/version.txt", "v1.0.0")])).1
      = .returned (some (.errorsNew "could not find releases"))
    ∧ (UpdateUpstream (scriptedOracle none none)
        (sampleWorld "" [("buildtools/wasm/version.txt", "v1.0.0")])).2.files
      = [("buildtools/wasm/version.txt", "v1.0.0")]
    ∧ (UpdateUpstream (scriptedOracle (some 2) (some ⟨some "v1.1.0"⟩))
        (sampleWorld "" [("buildtools/wasm/version.txt", "v1.0.0")])).1
      = .returned (some (.external "HTTP 500")) :=
  have h1 := (UpdateUpstream_errors (scriptedOracle none none)
      (sampleWorld "" [("buildtools/wasm/version.txt", "v1.0.0")])).2.2.2.2
      "v1.0.0" rfl rfl rfl rfl
  have h2 := (UpdateUpstream_errors (scriptedOracle (some 2) (some ⟨some "v1.1.0"⟩))
      (sampleWorld "" [("buildtools/wasm/version.txt", "v1.0.0")])).2.2.2.1
      "v1.0.0" "HTTP 500" rfl rfl rfl rfl
  ⟨h1.1, h1.2.2.2.2.1, h2.1⟩

end Magefiles
